import Mathlib

/- Verification of the tube-bank convective heat-transfer pipeline
   (function_definitions.py and Main.py).

   Modelling conventions:
   * Python floats are modelled as exact real numbers.
   * `numpy.interp(x, xs, ys)` is modelled by `linInterp x table` where `table`
     zips the parallel `xs`/`ys` lists of the source.
   * Python exceptions are modelled with `Except PyError`: `a / b` raises
     `ZeroDivisionError` when `b == 0`, and `math.log x` raises a domain
     `ValueError` when `x <= 0`.  Functions of the source that can raise are
     modelled in the `Except` monad; the remaining functions are total.
   * Python `x ** y` on floats is modelled by `Real.rpow`. -/

inductive PyError where
  | domainError : PyError
  | zeroDivisionError : PyError
deriving DecidableEq

/-- Python float division: raises ZeroDivisionError on a zero denominator. -/
noncomputable def pydiv (a b : ℝ) : Except PyError ℝ :=
  if b = 0 then .error .zeroDivisionError else .ok (a / b)

/-- Python `math.log`: raises a domain ValueError on a non-positive argument. -/
noncomputable def pylog (x : ℝ) : Except PyError ℝ :=
  if x ≤ 0 then .error .domainError else .ok (Real.log x)

/-- True exactly on the error outcomes of a computation. -/
def isErr : Except PyError ℝ → Bool
  | .error _ => true
  | .ok _ => false

/-- Model of `numpy.interp` over a table of (breakpoint, value) pairs sorted by
    breakpoint: clamps to the first value at or below the first breakpoint, to
    the last value above the last breakpoint, and interpolates linearly on each
    segment in between. -/
noncomputable def linInterp (x : ℝ) : List (ℝ × ℝ) → ℝ
  | [] => 0
  | [(_, y)] => y
  | (x1, y1) :: (x2, y2) :: rest =>
    if x ≤ x1 then y1
    else if x ≤ x2 then y1 + (y2 - y1) * (x - x1) / (x2 - x1)
    else linInterp x ((x2, y2) :: rest)

/-- `celsiusDataPoints` zipped with `prandtlNumberDataPoints`
    (`prandtlNumberCalculation`, function_definitions.py lines 84-101). -/
noncomputable def prandtlTable : List (ℝ × ℝ) :=
  [(0.0, 0.711), (6.9, 0.710), (15.6, 0.709), (26.9, 0.707), (46.9, 0.705),
   (66.9, 0.703), (86.9, 0.701), (106.9, 0.700), (126.9, 0.699)]

/-- `celsiusDataPoints` zipped with `dynamicViscosityDataPoints`
    (`calculateDynamicViscosity`, lines 188-213). -/
noncomputable def viscosityTable : List (ℝ × ℝ) :=
  [(0, 17.15), (5, 17.40), (10, 17.64), (15, 17.89), (20, 18.13), (25, 18.37),
   (30, 18.60), (40, 19.07), (50, 19.53), (60, 19.99), (80, 20.88),
   (100, 21.74), (125, 22.79)]

/-- `celsiusDataPoints` zipped with `thermalConductivityDataPoints`
    (`fluidThermalConductivityCalculation`, lines 252-277). -/
noncomputable def conductivityTable : List (ℝ × ℝ) :=
  [(0, 24.36), (5, 24.74), (10, 25.12), (15, 25.50), (20, 25.87), (25, 26.24),
   (30, 26.62), (40, 27.35), (50, 28.08), (60, 28.80), (80, 30.23),
   (100, 31.62), (125, 33.33)]

/-- `celsiusDataPoints` zipped with `densityDataPoints`
    (`calculateFluidDensity`, lines 303-328). -/
noncomputable def densityTable : List (ℝ × ℝ) :=
  [(0, 1.292), (5, 1.268), (10, 1.246), (15, 1.225), (20, 1.204), (25, 1.184),
   (30, 1.164), (40, 1.127), (50, 1.093), (60, 1.060), (80, 1.000),
   (100, 0.9467), (125, 0.8868)]

/-- `celsiusDataPoints` zipped with `specificHeatDataPoints`
    (`calculateFluidSpecificHeat`, lines 341-358). -/
noncomputable def specificHeatTable : List (ℝ × ℝ) :=
  [(0.0, 1.006), (6.9, 1.006), (15.6, 1.006), (26.9, 1.006), (46.9, 1.007),
   (66.9, 1.009), (86.9, 1.010), (107, 1.012), (127, 1.014)]

/-- `correctionFactorDict` for the aligned arrangement
    (`correctionFactorCalc`, lines 16-31). -/
noncomputable def alignedCorrectionTable : List (ℤ × ℝ) :=
  [(1, 0.7), (2, 0.8), (3, 0.86), (4, 0.9), (5, 0.92), (6, 0.935), (7, 0.95),
   (8, 0.96), (9, 0.965), (10, 0.97), (11, 0.975), (12, 0.98), (13, 0.98),
   (14, 0.983), (15, 0.986), (16, 0.99)]

/-- `correctionFactorDict` for the staggered arrangement
    (`correctionFactorCalc`, lines 33-48). -/
noncomputable def staggeredCorrectionTable : List (ℤ × ℝ) :=
  [(1, 0.64), (2, 0.76), (3, 0.84), (4, 0.89), (5, 0.92), (6, 0.935), (7, 0.95),
   (8, 0.96), (9, 0.965), (10, 0.97), (11, 0.975), (12, 0.98), (13, 0.98),
   (14, 0.983), (15, 0.986), (16, 0.99)]

/-- `correctionFactorCalc` (lines 6-50): a dict lookup keyed by arrangement and
    longitudinal cell count, with default 1 (`dict.get(key, 1)`); any
    arrangement other than "aligned"/"staggered" leaves the dict empty. -/
noncomputable def correctionFactorCalc (arrangement : String)
    (longitudinalCellNumber : ℤ) : ℝ :=
  ((if arrangement = "aligned" then alignedCorrectionTable
    else if arrangement = "staggered" then staggeredCorrectionTable
    else []).lookup longitudinalCellNumber).getD 1

/-- `findMaxReynolds` (lines 53-71).  The two candidate velocities are computed
    in source order (each division may raise ZeroDivisionError), the larger is
    kept, and the Reynolds number is formed with the diameter converted from
    millimetres to metres. -/
noncomputable def findMaxReynolds (airDensity cellDiameter dynamicViscosity
    transversePitch freestreamVelocity diametricalPitch : ℝ) :
    Except PyError ℝ := do
  let q1 ← pydiv transversePitch (transversePitch - cellDiameter)
  let velocity1 := q1 * freestreamVelocity
  let q2 ← pydiv transversePitch (2 * (diametricalPitch - cellDiameter))
  let velocity2 := q2 * freestreamVelocity
  let velocityMax := max velocity1 velocity2
  pydiv (airDensity * velocityMax * cellDiameter / 1000) dynamicViscosity

/-- `prandtlNumberCalculation` (lines 74-110): interpolates the Prandtl table
    at the surface and freestream temperatures, and at the film temperature
    only when the latter differs from the 0 default sentinel; returns the
    tuple (freestream, surface, film). -/
noncomputable def prandtlNumberCalculation (surfaceTemperature
    freestreamTemperature filmTemperature : ℝ) : ℝ × ℝ × ℝ :=
  let surfacePrandtl := linInterp surfaceTemperature prandtlTable
  let freestreamPrandtl := linInterp freestreamTemperature prandtlTable
  let filmPrandtl :=
    if filmTemperature ≠ 0 then linInterp filmTemperature prandtlTable else 0
  (freestreamPrandtl, surfacePrandtl, filmPrandtl)

/-- `constantCalculation` (lines 113-177): the Zukauskas regime selector.
    Branches that only print advisory messages leave the constants at the
    (0, 0) initialisation, as does falling through every branch.  Python's
    `&` does not short-circuit, so once the first two `elif` conditions have
    failed — i.e. whenever maxReynolds lies outside [10, 1000) — the third
    condition evaluates `transversePitch / longitudinalPitch`, which raises
    ZeroDivisionError when longitudinalPitch is 0; the explicit error check
    below sits exactly where that first division is evaluated. -/
noncomputable def constantCalculation (maxReynolds transversePitch
    longitudinalPitch : ℝ) (arrangement : String) :
    Except PyError (ℝ × ℝ) :=
  if arrangement = "aligned" then
    if 10 ≤ maxReynolds ∧ maxReynolds < 100 then .ok (0.8, 0.4)
    else if 100 ≤ maxReynolds ∧ maxReynolds < 1000 then .ok (0, 0)
    else if longitudinalPitch = 0 then .error .zeroDivisionError
    else if (1000 ≤ maxReynolds ∧ maxReynolds < 2 * 10 ^ 5) ∧
        transversePitch / longitudinalPitch > 0.7 then .ok (0.27, 0.63)
    else if (1000 ≤ maxReynolds ∧ maxReynolds < 2 * 10 ^ 5) ∧
        transversePitch / longitudinalPitch < 0.7 then .ok (0, 0)
    else if 2 * 10 ^ 5 ≤ maxReynolds ∧ maxReynolds < 2 * 10 ^ 6 then
      .ok (0.021, 0.84)
    else .ok (0, 0)
  else if arrangement = "staggered" then
    if 10 ≤ maxReynolds ∧ maxReynolds < 100 then .ok (0.9, 0.4)
    else if 100 ≤ maxReynolds ∧ maxReynolds < 1000 then .ok (0, 0)
    else if longitudinalPitch = 0 then .error .zeroDivisionError
    else if (1000 ≤ maxReynolds ∧ maxReynolds < 2 * 10 ^ 5) ∧
        transversePitch / longitudinalPitch < 2 then
      .ok (0.35 * (transversePitch / longitudinalPitch) ^ (0.2 : ℝ), 0.6)
    else if (1000 ≤ maxReynolds ∧ maxReynolds < 2 * 10 ^ 5) ∧
        transversePitch / longitudinalPitch > 2 then .ok (0.4, 0.6)
    else if 2 * 10 ^ 5 ≤ maxReynolds ∧ maxReynolds < 2 * 10 ^ 6 then
      .ok (0.022, 0.84)
    else .ok (0, 0)
  else .ok (0, 0)

/-- `nusseltNumberCalculation` (lines 218-241).  The fallback branch keeps the
    source's `filmPrandtl ** 1 / 3` expression (a power of one divided by
    three, not a cube root), with the film Prandtl number obtained from
    `prandtlNumberCalculation(0, 0, (surfaceTemperature+freestreamTemperature)/2)`. -/
noncomputable def nusseltNumberCalculation (constantOne constantTwo maxReynolds
    surfacePrandtl freestreamPrandtl surfaceTemperature freestreamTemperature
    correctionFactor : ℝ) : ℝ :=
  if constantOne = 0 ∧ constantTwo = 0 then
    let filmPrandtl :=
      (prandtlNumberCalculation 0 0
        ((surfaceTemperature + freestreamTemperature) / 2)).2.2
    (0.683 * maxReynolds ^ (0.466 : ℝ) * (filmPrandtl ^ (1 : ℝ) / 3)) *
      correctionFactor
  else
    (constantOne * maxReynolds ^ constantTwo *
        freestreamPrandtl ^ (0.36 : ℝ) *
        (freestreamPrandtl / surfacePrandtl) ^ (0.25 : ℝ)) * correctionFactor

/-- `calculateDynamicViscosity` (lines 180-215): film-temperature
    interpolation scaled by `10 ** (-6)`. -/
noncomputable def calculateDynamicViscosity (surfaceTemp freestreamTemp : ℝ) :
    ℝ :=
  linInterp ((surfaceTemp + freestreamTemp) / 2) viscosityTable *
    (10 : ℝ) ^ (-6 : ℤ)

/-- `fluidThermalConductivityCalculation` (lines 244-279): film-temperature
    interpolation divided by 1000. -/
noncomputable def fluidThermalConductivityCalculation (surfaceTemperature
    freestreamTemperature : ℝ) : ℝ :=
  linInterp ((surfaceTemperature + freestreamTemperature) / 2)
    conductivityTable / 1000

/-- `calculateAverageConvectiveCoefficient` (lines 282-292). -/
noncomputable def calculateAverageConvectiveCoefficient
    (fluidThermalConductivity cellDiameter nusseltNumber : ℝ) : ℝ :=
  nusseltNumber * fluidThermalConductivity / (cellDiameter / 1000)

/-- `calculateFluidDensity` (lines 295-330): film-temperature interpolation. -/
noncomputable def calculateFluidDensity (surfaceTemperature
    freestreamTemperature : ℝ) : ℝ :=
  linInterp ((surfaceTemperature + freestreamTemperature) / 2) densityTable

/-- `calculateFluidSpecificHeat` (lines 333-360): film-temperature
    interpolation scaled by 1000. -/
noncomputable def calculateFluidSpecificHeat (surfaceTemperature
    freestreamTemperature : ℝ) : ℝ :=
  linInterp ((surfaceTemperature + freestreamTemperature) / 2)
    specificHeatTable * 1000

/-- `calculateExitTemp` (lines 363-385), with the source's literal `3.14159`
    and its exact parenthesisation. -/
noncomputable def calculateExitTemp (cellDiameter cellNumber
    averageConvectiveCoef filmTempDensity freestreamVelocity
    cellNumberTransverse transversePitch filmTempSpecificHeat surfaceTemp
    freestreamTemp : ℝ) : ℝ :=
  -((Real.exp ((-3.14159 * cellDiameter / 1000 * cellNumber *
        averageConvectiveCoef) /
      (filmTempDensity * freestreamVelocity * cellNumberTransverse *
        transversePitch / 1000 * filmTempSpecificHeat)) *
      (surfaceTemp - freestreamTemp)) - surfaceTemp)

/-- `calculateLogMeanTempDifference` (lines 388-400): both divisions and the
    logarithm may raise. -/
noncomputable def calculateLogMeanTempDifference (surfaceTemperature
    freestreamTemperature exitTemperature : ℝ) : Except PyError ℝ := do
  let deltaOne := surfaceTemperature - freestreamTemperature
  let deltaTwo := surfaceTemperature - exitTemperature
  let q ← pydiv deltaOne deltaTwo
  let l ← pylog q
  pydiv (deltaOne - deltaTwo) l

/-- `calculateTotalHeatTransfer` (lines 403-415). -/
noncomputable def calculateTotalHeatTransfer (cellNumber averageConvectiveCoef
    cellDiameter logMeanTempDif cellLength : ℝ) : ℝ :=
  cellNumber * averageConvectiveCoef * 3.14159 * cellDiameter / 1000 *
    logMeanTempDif * cellLength

/-- Main.py line 17: `calculateFluidDensity(surfaceTemp, freestreamTemp)` with
    surfaceTemp = 60, freestreamTemp = 30. -/
noncomputable def mainFluidDensity : ℝ := calculateFluidDensity 60 30

/-- Main.py line 18: `correctionFactorCalc(arrangement, 10)`. -/
noncomputable def mainCorrectionFactor : ℝ := correctionFactorCalc "aligned" 10

/-- Main.py line 19: `calculateDynamicViscosity(surfaceTemp, freestreamTemp)`. -/
noncomputable def mainDynamicViscosity : ℝ := calculateDynamicViscosity 60 30

/-- The value produced by Main.py line 20's `findMaxReynolds` call
    (transversePitch = 20, cellDiameter = 18.5, velocity = 2.5,
    diametricalPitch = 0; the aligned candidate velocity wins the max). -/
noncomputable def mainMaxReynoldsVal : ℝ :=
  mainFluidDensity * (20 / (20 - 18.5) * 2.5) * 18.5 / 1000 /
    mainDynamicViscosity

/-- Main.py line 22: `constantCalculation(maxReynolds, 20, 18.536, "aligned")`.
    The script destructures the returned pair, so a raise would abort the run;
    `mainConstants_ok` below shows this run succeeds with (0.27, 0.63), so the
    default of the extraction is never taken. -/
noncomputable def mainConstants : ℝ × ℝ :=
  (constantCalculation mainMaxReynoldsVal 20 18.536 "aligned").toOption.getD
    (0, 0)

/-- Main.py line 23: the Nusselt number of the driver run (the Prandtl triple
    of line 21 is `prandtlNumberCalculation(60, 30, 45)`). -/
noncomputable def mainNusselt : ℝ :=
  nusseltNumberCalculation mainConstants.1 mainConstants.2 mainMaxReynoldsVal
    (prandtlNumberCalculation 60 30 45).2.1
    (prandtlNumberCalculation 60 30 45).1 60 30 mainCorrectionFactor

/-- Main.py line 25: the average convective coefficient of the driver run. -/
noncomputable def mainHBar : ℝ :=
  calculateAverageConvectiveCoefficient
    (fluidThermalConductivityCalculation 60 30) 18.5 mainNusselt

/-- Main.py line 26: the film-temperature specific heat of the driver run. -/
noncomputable def mainSpecificHeat : ℝ := calculateFluidSpecificHeat 60 30

/-- Main.py line 27: the exit temperature of the driver run (cellNumber = 180,
    numberTransverse = 4). -/
noncomputable def mainExitTemp : ℝ :=
  calculateExitTemp 18.5 180 mainHBar mainFluidDensity 2.5 4 20
    mainSpecificHeat 60 30

lemma linInterp_le_first (x x1 y1 : ℝ) (rest : List (ℝ × ℝ)) (h : x ≤ x1) :
    linInterp x ((x1, y1) :: rest) = y1 := by
  cases rest with
  | nil => simp [linInterp]
  | cons p rest' =>
    obtain ⟨x2, y2⟩ := p
    simp [linInterp, h]

lemma linInterp_mem : ∀ (t : List (ℝ × ℝ)) (x y : ℝ),
    (t.map Prod.fst).Pairwise (· < ·) → (x, y) ∈ t → linInterp x t = y := by
  intro t
  induction t with
  | nil => intro x y _ hm; simp at hm
  | cons p1 tl ih =>
    intro x y hp hm
    obtain ⟨x1, y1⟩ := p1
    cases tl with
    | nil =>
      simp only [List.mem_singleton, Prod.mk.injEq] at hm
      obtain ⟨hx, hy⟩ := hm
      simp [linInterp, hy]
    | cons p2 tl' =>
      obtain ⟨x2, y2⟩ := p2
      rw [List.map_cons, List.pairwise_cons] at hp
      obtain ⟨h1, h2⟩ := hp
      have h12 : x1 < x2 :=
        h1 x2 (List.mem_map.mpr ⟨(x2, y2), List.mem_cons_self _ _, rfl⟩)
      rcases List.mem_cons.mp hm with hhead | htail
      · simp only [Prod.mk.injEq] at hhead
        obtain ⟨hx, hy⟩ := hhead
        subst hx; subst hy
        simp [linInterp]
      · have hx1x : x1 < x := h1 x (List.mem_map.mpr ⟨(x, y), htail, rfl⟩)
        simp only [linInterp, if_neg (not_le.mpr hx1x)]
        rcases List.mem_cons.mp htail with hhead2 | htail2
        · simp only [Prod.mk.injEq] at hhead2
          obtain ⟨hx, hy⟩ := hhead2
          subst hx; subst hy
          rw [if_pos le_rfl]
          have hne := sub_ne_zero.mpr (ne_of_gt h12)
          rw [mul_div_assoc, div_self hne, mul_one]
          ring
        · have h2copy := h2
          rw [List.map_cons, List.pairwise_cons] at h2copy
          have hx2x : x2 < x :=
            h2copy.1 x (List.mem_map.mpr ⟨(x, y), htail2, rfl⟩)
          rw [if_neg (not_le.mpr hx2x)]
          exact ih x y h2 htail

lemma linInterp_last_of_ge : ∀ (t : List (ℝ × ℝ)) (p1 : ℝ × ℝ) (x xl yl : ℝ),
    ((p1 :: t).map Prod.fst).Pairwise (· < ·) →
    (p1 :: t).getLast? = some (xl, yl) →
    (∀ p ∈ p1 :: t, p.1 ≤ x) → linInterp x (p1 :: t) = yl := by
  intro t
  induction t with
  | nil =>
    intro p1 x xl yl _ hlast _
    obtain ⟨x1, y1⟩ := p1
    simp only [List.getLast?_singleton, Option.some.injEq, Prod.mk.injEq]
      at hlast
    obtain ⟨hx, hy⟩ := hlast
    subst hy
    simp [linInterp]
  | cons p2 tl ih =>
    intro p1 x xl yl hp hlast hb
    obtain ⟨x1, y1⟩ := p1
    obtain ⟨x2, y2⟩ := p2
    rw [List.map_cons, List.pairwise_cons] at hp
    obtain ⟨h1, hptail⟩ := hp
    have h12 : x1 < x2 :=
      h1 x2 (List.mem_map.mpr ⟨(x2, y2), List.mem_cons_self _ _, rfl⟩)
    have hx2x : x2 ≤ x := hb (x2, y2) (by simp)
    have hx1x : x1 < x := lt_of_lt_of_le h12 hx2x
    simp only [linInterp, if_neg (not_le.mpr hx1x)]
    rw [List.getLast?_cons_cons] at hlast
    cases tl with
    | nil =>
      simp only [List.getLast?_singleton, Option.some.injEq, Prod.mk.injEq]
        at hlast
      obtain ⟨hx, hy⟩ := hlast
      subst hx; subst hy
      by_cases hle : x ≤ x2
      · have hxeq : x = x2 := le_antisymm hle hx2x
        rw [if_pos hle, hxeq]
        have hne : x2 - x1 ≠ 0 := sub_ne_zero.mpr (ne_of_gt h12)
        rw [mul_div_assoc, div_self hne, mul_one]
        ring
      · rw [if_neg hle]
        simp [linInterp]
    | cons p3 tl' =>
      obtain ⟨x3, y3⟩ := p3
      have hptail2 := hptail
      rw [List.map_cons, List.pairwise_cons] at hptail2
      have h23 : x2 < x3 :=
        hptail2.1 x3 (List.mem_map.mpr ⟨(x3, y3), List.mem_cons_self _ _, rfl⟩)
      have hx3x : x3 ≤ x := hb (x3, y3) (by simp)
      rw [if_neg (not_le.mpr (lt_of_lt_of_le h23 hx3x))]
      exact ih (x2, y2) x xl yl hptail hlast
        (fun p hpmem => hb p (List.mem_cons_of_mem _ hpmem))

lemma lookup_none_of_ne (n : ℤ) : ∀ (l : List (ℤ × ℝ)),
    (∀ p ∈ l, p.1 ≠ n) → l.lookup n = none := by
  intro l
  induction l with
  | nil => intro _; rfl
  | cons p tl ih =>
    intro hn
    obtain ⟨k, v⟩ := p
    have hk : (n == k) = false :=
      beq_eq_false_iff_ne.mpr (Ne.symm (hn (k, v) (List.mem_cons_self _ _)))
    simp [List.lookup, hk,
      ih (fun q hq => hn q (List.mem_cons_of_mem _ hq))]

lemma prandtlTable_sorted : (prandtlTable.map Prod.fst).Pairwise (· < ·) := by
  norm_num [prandtlTable, List.pairwise_cons]

lemma viscosityTable_sorted :
    (viscosityTable.map Prod.fst).Pairwise (· < ·) := by
  norm_num [viscosityTable, List.pairwise_cons]

lemma conductivityTable_sorted :
    (conductivityTable.map Prod.fst).Pairwise (· < ·) := by
  norm_num [conductivityTable, List.pairwise_cons]

lemma densityTable_sorted : (densityTable.map Prod.fst).Pairwise (· < ·) := by
  norm_num [densityTable, List.pairwise_cons]

lemma specificHeatTable_sorted :
    (specificHeatTable.map Prod.fst).Pairwise (· < ·) := by
  norm_num [specificHeatTable, List.pairwise_cons]

lemma prandtl_hi {x : ℝ} (h : 126.9 ≤ x) : linInterp x prandtlTable = 0.699 := by
  simp only [prandtlTable]
  exact linInterp_last_of_ge _ _ x 126.9 0.699 prandtlTable_sorted (by rfl)
    (by intro p hp; fin_cases hp <;> (dsimp; linarith))

lemma viscosity_hi {x : ℝ} (h : 125 ≤ x) :
    linInterp x viscosityTable = 22.79 := by
  simp only [viscosityTable]
  exact linInterp_last_of_ge _ _ x 125 22.79 viscosityTable_sorted (by rfl)
    (by intro p hp; fin_cases hp <;> (dsimp; linarith))

lemma conductivity_hi {x : ℝ} (h : 125 ≤ x) :
    linInterp x conductivityTable = 33.33 := by
  simp only [conductivityTable]
  exact linInterp_last_of_ge _ _ x 125 33.33 conductivityTable_sorted (by rfl)
    (by intro p hp; fin_cases hp <;> (dsimp; linarith))

lemma density_hi {x : ℝ} (h : 125 ≤ x) : linInterp x densityTable = 0.8868 := by
  simp only [densityTable]
  exact linInterp_last_of_ge _ _ x 125 0.8868 densityTable_sorted (by rfl)
    (by intro p hp; fin_cases hp <;> (dsimp; linarith))

lemma specificHeat_hi {x : ℝ} (h : 127 ≤ x) :
    linInterp x specificHeatTable = 1.014 := by
  simp only [specificHeatTable]
  exact linInterp_last_of_ge _ _ x 127 1.014 specificHeatTable_sorted (by rfl)
    (by intro p hp; fin_cases hp <;> (dsimp; linarith))

lemma correctionFactorCalc_default (a : String) (n : ℤ) (h : n < 1 ∨ 16 < n) :
    correctionFactorCalc a n = 1 := by
  rw [correctionFactorCalc]
  split_ifs with h1 h2
  · rw [lookup_none_of_ne n alignedCorrectionTable
      (by intro p hp
          simp only [alignedCorrectionTable] at hp
          fin_cases hp <;> (dsimp; omega))]
    rfl
  · rw [lookup_none_of_ne n staggeredCorrectionTable
      (by intro p hp
          simp only [staggeredCorrectionTable] at hp
          fin_cases hp <;> (dsimp; omega))]
    rfl
  · rfl

/-- Claim C8: `correctionFactorCalc` returns the fixed tabulated factor for
    arrangement in \x7baligned, staggered\x7d and integer row counts 1 through 16 —
    in particular (aligned, 16) gives 0.99 and (staggered, 1) gives 0.64 — and
    returns exactly 1.0 for every row count greater than 16 or any key not
    found in the table. -/
theorem correctionFactorCalc_table (n : ℤ) (a : String) :
    correctionFactorCalc "aligned" 16 = 0.99 ∧
    correctionFactorCalc "staggered" 1 = 0.64 ∧
    (16 < n → correctionFactorCalc a n = 1) ∧
    (n < 1 → correctionFactorCalc a n = 1) ∧
    (a ≠ "aligned" → a ≠ "staggered" → correctionFactorCalc a n = 1) ∧
    (∀ y, (n, y) ∈ alignedCorrectionTable →
      correctionFactorCalc "aligned" n = y) ∧
    (∀ y, (n, y) ∈ staggeredCorrectionTable →
      correctionFactorCalc "staggered" n = y) := by
  refine ⟨by rfl, by rfl, ?_, ?_, ?_, ?_, ?_⟩
  · intro h
    exact correctionFactorCalc_default a n (Or.inr h)
  · intro h
    exact correctionFactorCalc_default a n (Or.inl h)
  · intro h1 h2
    rw [correctionFactorCalc, if_neg h1, if_neg h2]
    rfl
  · intro y hy
    simp only [alignedCorrectionTable] at hy
    fin_cases hy <;> rfl
  · intro y hy
    simp only [staggeredCorrectionTable] at hy
    fin_cases hy <;> rfl

/-- Witness for C8 at concrete inputs: aligned row 16 and row 17. -/
theorem correctionFactorCalc_table_witness :
    correctionFactorCalc "aligned" 16 = 0.99 ∧
    correctionFactorCalc "aligned" 17 = 1 :=
  ⟨(correctionFactorCalc_table 17 "aligned").1,
   (correctionFactorCalc_table 17 "aligned").2.2.1 (by norm_num)⟩

/-- Claim C1 (amended): for every maxReynolds, transversePitch,
    longitudinalPitch and arrangement in \x7baligned, staggered\x7d,
    `constantCalculation` behaves as follows.  Re in [10,100) gives (0.8,0.4)
    aligned and (0.9,0.4) staggered, and Re in [100,1000) gives the (0,0)
    sentinel, with no division evaluated.  For every other Reynolds number the
    non-short-circuiting `&` evaluates transversePitch/longitudinalPitch, so
    longitudinalPitch = 0 raises ZeroDivisionError; otherwise the regime table
    holds: Re in [1000,2e5) gives (0.27,0.63) aligned when the pitch quotient
    exceeds 0.7, (0.35*(q^0.2),0.6) staggered when q < 2, (0.4,0.6) staggered
    when q > 2; Re in [2e5,2e6) gives (0.021,0.84) aligned and (0.022,0.84)
    staggered; Re > 2e6 or Re < 10 gives (0,0); and the equality boundary
    cases q = 0.7 (aligned) and q = 2 (staggered) with Re in [1000,2e5) fall
    through every branch leaving the constants at (0,0). -/
theorem constantCalculation_regimeTable (Re tP lP : ℝ) :
    (10 ≤ Re ∧ Re < 100 →
      constantCalculation Re tP lP "aligned" = .ok (0.8, 0.4) ∧
      constantCalculation Re tP lP "staggered" = .ok (0.9, 0.4)) ∧
    (100 ≤ Re ∧ Re < 1000 →
      constantCalculation Re tP lP "aligned" = .ok (0, 0) ∧
      constantCalculation Re tP lP "staggered" = .ok (0, 0)) ∧
    (lP ≠ 0 → 1000 ≤ Re ∧ Re < 2 * 10 ^ 5 →
      (tP / lP > 0.7 →
        constantCalculation Re tP lP "aligned" = .ok (0.27, 0.63)) ∧
      (tP / lP < 2 →
        constantCalculation Re tP lP "staggered" =
          .ok (0.35 * (tP / lP) ^ (0.2 : ℝ), 0.6)) ∧
      (tP / lP > 2 →
        constantCalculation Re tP lP "staggered" = .ok (0.4, 0.6)) ∧
      (tP / lP = 0.7 → constantCalculation Re tP lP "aligned" = .ok (0, 0)) ∧
      (tP / lP = 2 →
        constantCalculation Re tP lP "staggered" = .ok (0, 0))) ∧
    (lP ≠ 0 → 2 * 10 ^ 5 ≤ Re ∧ Re < 2 * 10 ^ 6 →
      constantCalculation Re tP lP "aligned" = .ok (0.021, 0.84) ∧
      constantCalculation Re tP lP "staggered" = .ok (0.022, 0.84)) ∧
    (lP ≠ 0 → Re > 2 * 10 ^ 6 ∨ Re < 10 →
      constantCalculation Re tP lP "aligned" = .ok (0, 0) ∧
      constantCalculation Re tP lP "staggered" = .ok (0, 0)) ∧
    (lP = 0 → ¬(10 ≤ Re ∧ Re < 1000) →
      constantCalculation Re tP lP "aligned" = .error .zeroDivisionError ∧
      constantCalculation Re tP lP "staggered" =
        .error .zeroDivisionError) := by
  refine ⟨?_, ?_, ?_, ?_, ?_, ?_⟩
  · rintro ⟨h1, h2⟩
    constructor
    · rw [constantCalculation, if_pos rfl, if_pos ⟨h1, h2⟩]
    · rw [constantCalculation, if_neg (by decide), if_pos rfl,
        if_pos ⟨h1, h2⟩]
  · rintro ⟨h1, h2⟩
    constructor
    · rw [constantCalculation, if_pos rfl,
        if_neg (by rintro ⟨-, hb⟩; linarith), if_pos ⟨h1, h2⟩]
    · rw [constantCalculation, if_neg (by decide), if_pos rfl,
        if_neg (by rintro ⟨-, hb⟩; linarith), if_pos ⟨h1, h2⟩]
  · rintro hlP ⟨h1, h2⟩
    refine ⟨?_, ?_, ?_, ?_, ?_⟩
    · intro hq
      rw [constantCalculation, if_pos rfl,
        if_neg (by rintro ⟨-, hb⟩; linarith),
        if_neg (by rintro ⟨-, hb⟩; linarith), if_neg hlP,
        if_pos ⟨⟨h1, h2⟩, hq⟩]
    · intro hq
      rw [constantCalculation, if_neg (by decide), if_pos rfl,
        if_neg (by rintro ⟨-, hb⟩; linarith),
        if_neg (by rintro ⟨-, hb⟩; linarith), if_neg hlP,
        if_pos ⟨⟨h1, h2⟩, hq⟩]
    · intro hq
      rw [constantCalculation, if_neg (by decide), if_pos rfl,
        if_neg (by rintro ⟨-, hb⟩; linarith),
        if_neg (by rintro ⟨-, hb⟩; linarith), if_neg hlP,
        if_neg (by rintro ⟨-, hb⟩; linarith), if_pos ⟨⟨h1, h2⟩, hq⟩]
    · intro hq
      rw [constantCalculation, if_pos rfl,
        if_neg (by rintro ⟨-, hb⟩; linarith),
        if_neg (by rintro ⟨-, hb⟩; linarith), if_neg hlP,
        if_neg (by rintro ⟨-, hb⟩; linarith),
        if_neg (by rintro ⟨-, hb⟩; linarith),
        if_neg (by rintro ⟨hb, -⟩; linarith)]
    · intro hq
      rw [constantCalculation, if_neg (by decide), if_pos rfl,
        if_neg (by rintro ⟨-, hb⟩; linarith),
        if_neg (by rintro ⟨-, hb⟩; linarith), if_neg hlP,
        if_neg (by rintro ⟨-, hb⟩; linarith),
        if_neg (by rintro ⟨-, hb⟩; linarith),
        if_neg (by rintro ⟨hb, -⟩; linarith)]
  · rintro hlP ⟨h1, h2⟩
    constructor
    · rw [constantCalculation, if_pos rfl,
        if_neg (by rintro ⟨-, hb⟩; linarith),
        if_neg (by rintro ⟨-, hb⟩; linarith), if_neg hlP,
        if_neg (by rintro ⟨⟨-, hb⟩, -⟩; linarith),
        if_neg (by rintro ⟨⟨-, hb⟩, -⟩; linarith), if_pos ⟨h1, h2⟩]
    · rw [constantCalculation, if_neg (by decide), if_pos rfl,
        if_neg (by rintro ⟨-, hb⟩; linarith),
        if_neg (by rintro ⟨-, hb⟩; linarith), if_neg hlP,
        if_neg (by rintro ⟨⟨-, hb⟩, -⟩; linarith),
        if_neg (by rintro ⟨⟨-, hb⟩, -⟩; linarith), if_pos ⟨h1, h2⟩]
  · intro hlP h
    constructor
    · rw [constantCalculation, if_pos rfl,
        if_neg (by rintro ⟨ha, hb⟩; rcases h with h | h <;> linarith),
        if_neg (by rintro ⟨ha, hb⟩; rcases h with h | h <;> linarith),
        if_neg hlP,
        if_neg (by rintro ⟨⟨ha, hb⟩, -⟩; rcases h with h | h <;> linarith),
        if_neg (by rintro ⟨⟨ha, hb⟩, -⟩; rcases h with h | h <;> linarith),
        if_neg (by rintro ⟨ha, hb⟩; rcases h with h | h <;> linarith)]
    · rw [constantCalculation, if_neg (by decide), if_pos rfl,
        if_neg (by rintro ⟨ha, hb⟩; rcases h with h | h <;> linarith),
        if_neg (by rintro ⟨ha, hb⟩; rcases h with h | h <;> linarith),
        if_neg hlP,
        if_neg (by rintro ⟨⟨ha, hb⟩, -⟩; rcases h with h | h <;> linarith),
        if_neg (by rintro ⟨⟨ha, hb⟩, -⟩; rcases h with h | h <;> linarith),
        if_neg (by rintro ⟨ha, hb⟩; rcases h with h | h <;> linarith)]
  · intro hlP h
    have hn1 : ¬(10 ≤ Re ∧ Re < 100) := by
      rintro ⟨ha, hb⟩
      exact h ⟨ha, by linarith⟩
    have hn2 : ¬(100 ≤ Re ∧ Re < 1000) := by
      rintro ⟨ha, hb⟩
      exact h ⟨by linarith, hb⟩
    constructor
    · rw [constantCalculation, if_pos rfl, if_neg hn1, if_neg hn2,
        if_pos hlP]
    · rw [constantCalculation, if_neg (by decide), if_pos rfl, if_neg hn1,
        if_neg hn2, if_pos hlP]

/-- Counterexample for C1: at Re = 1e6 in [2e5, 2e6) — where the claim asserts
    the constants (0.021, 0.84) — longitudinalPitch = 0 makes the eagerly
    evaluated pitch quotient raise ZeroDivisionError instead. -/
theorem constantCalculation_div_cex :
    (2 * 10 ^ 5 ≤ (1000000 : ℝ) ∧ (1000000 : ℝ) < 2 * 10 ^ 6) ∧
    constantCalculation 1000000 1 0 "aligned" =
      .error .zeroDivisionError := by
  refine ⟨by norm_num, ?_⟩
  rw [constantCalculation, if_pos rfl,
    if_neg (by rintro ⟨-, hb⟩; norm_num at hb),
    if_neg (by rintro ⟨-, hb⟩; norm_num at hb), if_pos rfl]

/-- Witness for C1: the low-Reynolds regime Re = 50, the turbulent regime
    Re = 5e5 with nonzero longitudinal pitch, and the error path at
    longitudinal pitch 0. -/
theorem constantCalculation_regimeTable_witness :
    (constantCalculation 50 1 1 "aligned" = .ok (0.8, 0.4) ∧
     constantCalculation 50 1 1 "staggered" = .ok (0.9, 0.4)) ∧
    constantCalculation 500000 1 1 "aligned" = .ok (0.021, 0.84) ∧
    constantCalculation 5 1 0 "aligned" = .error .zeroDivisionError :=
  ⟨(constantCalculation_regimeTable 50 1 1).1 (by norm_num),
   ((constantCalculation_regimeTable 500000 1 1).2.2.2.1 (by norm_num)
     (by norm_num)).1,
   ((constantCalculation_regimeTable 5 1 0).2.2.2.2.2 rfl (by
     rintro ⟨ha, -⟩; linarith)).1⟩


lemma findMaxReynolds_eval (airDensity cellDiameter dynamicViscosity
    transversePitch freestreamVelocity diametricalPitch : ℝ)
    (h1 : transversePitch - cellDiameter ≠ 0)
    (h2 : diametricalPitch - cellDiameter ≠ 0) (h3 : dynamicViscosity ≠ 0) :
    findMaxReynolds airDensity cellDiameter dynamicViscosity transversePitch
      freestreamVelocity diametricalPitch =
    .ok (airDensity *
        max (transversePitch / (transversePitch - cellDiameter) *
            freestreamVelocity)
          (transversePitch / (2 * (diametricalPitch - cellDiameter)) *
            freestreamVelocity) *
        cellDiameter / 1000 / dynamicViscosity) := by
  rw [findMaxReynolds, pydiv, if_neg h1]
  show Except.bind _ _ = _
  rw [Except.bind]
  show Except.bind (pydiv _ _) _ = _
  rw [pydiv, if_neg (mul_ne_zero two_ne_zero h2), Except.bind]
  rw [pydiv, if_neg h3]

lemma findMaxReynolds_err1 (airDensity cellDiameter dynamicViscosity
    transversePitch freestreamVelocity diametricalPitch : ℝ)
    (h1 : transversePitch - cellDiameter = 0) :
    findMaxReynolds airDensity cellDiameter dynamicViscosity transversePitch
      freestreamVelocity diametricalPitch = .error .zeroDivisionError := by
  rw [findMaxReynolds, pydiv, if_pos h1]
  rfl

lemma findMaxReynolds_err2 (airDensity cellDiameter dynamicViscosity
    transversePitch freestreamVelocity diametricalPitch : ℝ)
    (h1 : transversePitch - cellDiameter ≠ 0)
    (h2 : diametricalPitch - cellDiameter = 0) :
    findMaxReynolds airDensity cellDiameter dynamicViscosity transversePitch
      freestreamVelocity diametricalPitch = .error .zeroDivisionError := by
  rw [findMaxReynolds, pydiv, if_neg h1]
  show Except.bind _ _ = _
  rw [Except.bind]
  show Except.bind (pydiv _ _) _ = _
  rw [pydiv, if_pos (by rw [h2]; ring)]
  rfl

lemma findMaxReynolds_err3 (airDensity cellDiameter dynamicViscosity
    transversePitch freestreamVelocity diametricalPitch : ℝ)
    (h1 : transversePitch - cellDiameter ≠ 0)
    (h2 : diametricalPitch - cellDiameter ≠ 0) (h3 : dynamicViscosity = 0) :
    findMaxReynolds airDensity cellDiameter dynamicViscosity transversePitch
      freestreamVelocity diametricalPitch = .error .zeroDivisionError := by
  rw [findMaxReynolds, pydiv, if_neg h1]
  show Except.bind _ _ = _
  rw [Except.bind]
  show Except.bind (pydiv _ _) _ = _
  rw [pydiv, if_neg (mul_ne_zero two_ne_zero h2), Except.bind]
  rw [pydiv, if_pos h3]

lemma lmtd_eval (surfaceTemperature freestreamTemperature exitTemperature : ℝ)
    (h1 : surfaceTemperature - exitTemperature ≠ 0)
    (h2 : ¬((surfaceTemperature - freestreamTemperature) /
        (surfaceTemperature - exitTemperature) ≤ 0))
    (h3 : Real.log ((surfaceTemperature - freestreamTemperature) /
        (surfaceTemperature - exitTemperature)) ≠ 0) :
    calculateLogMeanTempDifference surfaceTemperature freestreamTemperature
      exitTemperature =
    .ok (((surfaceTemperature - freestreamTemperature) -
        (surfaceTemperature - exitTemperature)) /
      Real.log ((surfaceTemperature - freestreamTemperature) /
        (surfaceTemperature - exitTemperature))) := by
  rw [calculateLogMeanTempDifference, pydiv, if_neg h1]
  show Except.bind _ _ = _
  rw [Except.bind]
  show Except.bind (pylog _) _ = _
  rw [pylog, if_neg h2, Except.bind]
  rw [pydiv, if_neg h3]

lemma lmtd_err1 (surfaceTemperature freestreamTemperature exitTemperature : ℝ)
    (h1 : surfaceTemperature - exitTemperature = 0) :
    calculateLogMeanTempDifference surfaceTemperature freestreamTemperature
      exitTemperature = .error .zeroDivisionError := by
  rw [calculateLogMeanTempDifference, pydiv, if_pos h1]
  rfl

lemma lmtd_err2 (surfaceTemperature freestreamTemperature exitTemperature : ℝ)
    (h1 : surfaceTemperature - exitTemperature ≠ 0)
    (h2 : (surfaceTemperature - freestreamTemperature) /
        (surfaceTemperature - exitTemperature) ≤ 0) :
    calculateLogMeanTempDifference surfaceTemperature freestreamTemperature
      exitTemperature = .error .domainError := by
  rw [calculateLogMeanTempDifference, pydiv, if_neg h1]
  show Except.bind _ _ = _
  rw [Except.bind]
  show Except.bind (pylog _) _ = _
  rw [pylog, if_pos h2]
  rfl

lemma lmtd_err3 (surfaceTemperature freestreamTemperature exitTemperature : ℝ)
    (h1 : surfaceTemperature - exitTemperature ≠ 0)
    (h2 : ¬((surfaceTemperature - freestreamTemperature) /
        (surfaceTemperature - exitTemperature) ≤ 0))
    (h3 : Real.log ((surfaceTemperature - freestreamTemperature) /
        (surfaceTemperature - exitTemperature)) = 0) :
    calculateLogMeanTempDifference surfaceTemperature freestreamTemperature
      exitTemperature = .error .zeroDivisionError := by
  rw [calculateLogMeanTempDifference, pydiv, if_neg h1]
  show Except.bind _ _ = _
  rw [Except.bind]
  show Except.bind (pylog _) _ = _
  rw [pylog, if_neg h2, Except.bind]
  rw [pydiv, if_pos h3]

/-- Claim C7: for diametricalPitch = 0, transversePitch > cellDiameter > 0 and
    positive density, viscosity and velocity, the staggered candidate velocity
    is negative and discarded by the max, so `findMaxReynolds` returns
    airDensity * (transversePitch/(transversePitch−cellDiameter)) *
    freestreamVelocity * (cellDiameter/1000) / dynamicViscosity. -/
theorem findMaxReynolds_aligned (airDensity cellDiameter dynamicViscosity
    transversePitch freestreamVelocity : ℝ) (hd : 0 < cellDiameter)
    (hp : cellDiameter < transversePitch) (hden : 0 < airDensity)
    (hmu : 0 < dynamicViscosity) (hv : 0 < freestreamVelocity) :
    transversePitch / (2 * (0 - cellDiameter)) * freestreamVelocity < 0 ∧
    max (transversePitch / (transversePitch - cellDiameter) *
        freestreamVelocity)
      (transversePitch / (2 * (0 - cellDiameter)) * freestreamVelocity) =
      transversePitch / (transversePitch - cellDiameter) *
        freestreamVelocity ∧
    findMaxReynolds airDensity cellDiameter dynamicViscosity transversePitch
      freestreamVelocity 0 =
    .ok (airDensity * (transversePitch / (transversePitch - cellDiameter)) *
      freestreamVelocity * (cellDiameter / 1000) / dynamicViscosity) := by
  have htP : 0 < transversePitch := lt_trans hd hp
  have hsub : 0 < transversePitch - cellDiameter := by linarith
  have hv2 : transversePitch / (2 * (0 - cellDiameter)) * freestreamVelocity <
      0 := by
    apply mul_neg_of_neg_of_pos _ hv
    apply div_neg_of_pos_of_neg htP
    linarith
  have hv1 : 0 < transversePitch / (transversePitch - cellDiameter) *
      freestreamVelocity := mul_pos (div_pos htP hsub) hv
  have hmax : max (transversePitch / (transversePitch - cellDiameter) *
        freestreamVelocity)
      (transversePitch / (2 * (0 - cellDiameter)) * freestreamVelocity) =
      transversePitch / (transversePitch - cellDiameter) *
        freestreamVelocity :=
    max_eq_left (le_of_lt (lt_trans hv2 hv1))
  refine ⟨hv2, hmax, ?_⟩
  rw [findMaxReynolds_eval airDensity cellDiameter dynamicViscosity
    transversePitch freestreamVelocity 0 (ne_of_gt hsub)
    (by intro hh; rw [sub_eq_zero] at hh; linarith) (ne_of_gt hmu), hmax]
  congr 1
  ring

/-- Witness for C7 at density 1, diameter 10 mm, viscosity 1, pitch 20 mm,
    velocity 1. -/
theorem findMaxReynolds_aligned_witness :
    findMaxReynolds 1 10 1 20 1 0 =
    .ok (1 * ((20 : ℝ) / (20 - 10)) * 1 * (10 / 1000) / 1) :=
  (findMaxReynolds_aligned 1 10 1 20 1 (by norm_num) (by norm_num)
    (by norm_num) (by norm_num) (by norm_num)).2.2

/-- Counterexample for C5: the physically invalid flow with zero freestream
    velocity does not abort — `findMaxReynolds` returns the numeric value 0
    instead of surfacing a domain error. -/
theorem findMaxReynolds_no_abort_cex : findMaxReynolds 1 10 1 20 0 0 =
    .ok 0 := by
  rw [findMaxReynolds_eval 1 10 1 20 0 0 (by norm_num) (by norm_num)
    (by norm_num)]
  norm_num

/-- Claim C5 (amended): the pipeline performs no domain validation;
    `findMaxReynolds` aborts — always with ZeroDivisionError — exactly when
    transversePitch = cellDiameter, diametricalPitch = cellDiameter, or
    dynamicViscosity = 0, and every other input (including non-positive
    velocities, diameters and pitches) yields a numeric result. -/
theorem findMaxReynolds_error_spec (airDensity cellDiameter dynamicViscosity
    transversePitch freestreamVelocity diametricalPitch : ℝ) :
    (isErr (findMaxReynolds airDensity cellDiameter dynamicViscosity
        transversePitch freestreamVelocity diametricalPitch) = true ↔
      transversePitch = cellDiameter ∨ diametricalPitch = cellDiameter ∨
        dynamicViscosity = 0) ∧
    (transversePitch = cellDiameter ∨ diametricalPitch = cellDiameter ∨
        dynamicViscosity = 0 →
      findMaxReynolds airDensity cellDiameter dynamicViscosity transversePitch
        freestreamVelocity diametricalPitch = .error .zeroDivisionError) := by
  by_cases h1 : transversePitch - cellDiameter = 0
  · rw [findMaxReynolds_err1 _ _ _ _ _ _ h1]
    exact ⟨by simp [isErr, sub_eq_zero.mp h1], fun _ => rfl⟩
  · by_cases h2 : diametricalPitch - cellDiameter = 0
    · rw [findMaxReynolds_err2 _ _ _ _ _ _ h1 h2]
      exact ⟨by simp [isErr, sub_eq_zero.mp h2], fun _ => rfl⟩
    · by_cases h3 : dynamicViscosity = 0
      · rw [findMaxReynolds_err3 _ _ _ _ _ _ h1 h2 h3]
        exact ⟨by simp [isErr, h3], fun _ => rfl⟩
      · rw [findMaxReynolds_eval _ _ _ _ _ _ h1 h2 h3]
        constructor
        · simp [isErr, sub_ne_zero.mp h1, sub_ne_zero.mp h2, h3]
        · intro h
          exfalso
          rcases h with h | h | h
          · exact sub_ne_zero.mp h1 h
          · exact sub_ne_zero.mp h2 h
          · exact h3 h

/-- Witness for C5 at transversePitch = cellDiameter = 10. -/
theorem findMaxReynolds_error_spec_witness :
    findMaxReynolds 1 10 1 10 1 0 = .error .zeroDivisionError :=
  (findMaxReynolds_error_spec 1 10 1 10 1 0).2 (Or.inl rfl)

/-- Counterexample for C4: with surfaceTemperature 0, freestreamTemperature 1,
    exitTemperature 2 both deltas are negative (ΔT1 = −1 ≤ 0), yet the
    function returns a numeric value instead of failing as the claim
    requires. -/
theorem lmtd_cex : isErr (calculateLogMeanTempDifference 0 1 2) = false ∧
    (0 : ℝ) - 1 ≤ 0 := by
  constructor
  · have hq : ((0 : ℝ) - 1) / ((0 : ℝ) - 2) = 1 / 2 := by norm_num
    have hlt : Real.log (((0 : ℝ) - 1) / ((0 : ℝ) - 2)) < 0 := by
      rw [hq]
      exact Real.log_neg (by norm_num) (by norm_num)
    rw [lmtd_eval 0 1 2 (by norm_num) (by rw [hq]; norm_num) (ne_of_lt hlt)]
    rfl
  · norm_num

/-- Claim C4 (amended): `calculateLogMeanTempDifference` returns
    (ΔT1−ΔT2)/ln(ΔT1/ΔT2) whenever it succeeds, and fails exactly when
    ΔT2 = 0 (ZeroDivisionError), ΔT1/ΔT2 ≤ 0 (domain error), or ΔT1 = ΔT2
    (ZeroDivisionError on the zero logarithm); in particular it fails whenever
    surfaceTemperature = freestreamTemperature, with a domain error when
    additionally exitTemperature ≠ surfaceTemperature. -/
theorem lmtd_spec (surfaceTemperature freestreamTemperature
    exitTemperature : ℝ) :
    (∀ r, calculateLogMeanTempDifference surfaceTemperature
        freestreamTemperature exitTemperature = .ok r →
      r = ((surfaceTemperature - freestreamTemperature) -
          (surfaceTemperature - exitTemperature)) /
        Real.log ((surfaceTemperature - freestreamTemperature) /
          (surfaceTemperature - exitTemperature))) ∧
    (isErr (calculateLogMeanTempDifference surfaceTemperature
        freestreamTemperature exitTemperature) = true ↔
      surfaceTemperature - exitTemperature = 0 ∨
      (surfaceTemperature - freestreamTemperature) /
          (surfaceTemperature - exitTemperature) ≤ 0 ∨
      surfaceTemperature - freestreamTemperature =
        surfaceTemperature - exitTemperature) ∧
    (surfaceTemperature = freestreamTemperature →
      isErr (calculateLogMeanTempDifference surfaceTemperature
        freestreamTemperature exitTemperature) = true) ∧
    (surfaceTemperature = freestreamTemperature →
      exitTemperature ≠ surfaceTemperature →
      calculateLogMeanTempDifference surfaceTemperature freestreamTemperature
        exitTemperature = .error .domainError) := by
  by_cases h1 : surfaceTemperature - exitTemperature = 0
  · rw [lmtd_err1 _ _ _ h1]
    refine ⟨?_, ?_, ?_, ?_⟩
    · intro r hr
      exact Except.noConfusion hr
    · simp [isErr, h1]
    · intro _
      rfl
    · intro _ hne
      exact absurd (sub_eq_zero.mp h1).symm hne
  · by_cases h2 : (surfaceTemperature - freestreamTemperature) /
        (surfaceTemperature - exitTemperature) ≤ 0
    · rw [lmtd_err2 _ _ _ h1 h2]
      refine ⟨?_, ?_, ?_, ?_⟩
      · intro r hr
        exact Except.noConfusion hr
      · simp [isErr, h2]
      · intro _
        rfl
      · intro _ _
        rfl
    · by_cases h3 : Real.log ((surfaceTemperature - freestreamTemperature) /
          (surfaceTemperature - exitTemperature)) = 0
      · rw [lmtd_err3 _ _ _ h1 h2 h3]
        have hone : (surfaceTemperature - freestreamTemperature) /
            (surfaceTemperature - exitTemperature) = 1 := by
          rcases Real.log_eq_zero.mp h3 with hc | hc | hc
          · exact absurd (le_of_eq hc) h2
          · exact hc
          · exact absurd (le_of_eq hc) (by intro hle; exact h2 (by linarith))
        have heq : surfaceTemperature - freestreamTemperature =
            surfaceTemperature - exitTemperature :=
          (div_eq_one_iff_eq h1).mp hone
        refine ⟨?_, ?_, ?_, ?_⟩
        · intro r hr
          exact Except.noConfusion hr
        · simp [isErr, heq]
        · intro _
          rfl
        · intro hsf _
          exfalso
          apply h2
          rw [hsf]
          simp
      · rw [lmtd_eval _ _ _ h1 h2 h3]
        have hne_dd : surfaceTemperature - freestreamTemperature ≠
            surfaceTemperature - exitTemperature := by
          intro heq
          exact h3 (by rw [heq, div_self h1, Real.log_one])
        refine ⟨?_, ?_, ?_, ?_⟩
        · intro r hr
          simpa using hr.symm
        · simp [isErr, h1, h2, hne_dd]
        · intro hsf
          exfalso
          apply h2
          rw [hsf]
          simp
        · intro hsf _
          exfalso
          apply h2
          rw [hsf]
          simp

/-- Witness for C4: equal surface and freestream temperatures make the
    function fail. -/
theorem lmtd_spec_witness :
    isErr (calculateLogMeanTempDifference 30 30 50) = true :=
  (lmtd_spec 30 30 50).2.2.1 rfl

/-- Counterexample for C3: at unit parameters the code's exponent is the
    literal −3.14159 while the claim's is −π, and the exponential separates
    them. -/
theorem calculateExitTemp_pi_cex :
    calculateExitTemp 1000 1 1 1 1 1 1000 1 1 0 ≠
    1 - (1 - 0) * Real.exp (-Real.pi * (1000 / 1000) * 1 * 1 /
      (1 * 1 * 1 * (1000 / 1000) * 1)) := by
  have h1 : calculateExitTemp 1000 1 1 1 1 1 1000 1 1 0 =
      1 - Real.exp (-3.14159) := by
    rw [calculateExitTemp]
    norm_num
  have h2 : (1 : ℝ) - (1 - 0) * Real.exp (-Real.pi * (1000 / 1000) * 1 * 1 /
      (1 * 1 * 1 * (1000 / 1000) * 1)) = 1 - Real.exp (-Real.pi) := by
    norm_num
  rw [h1, h2]
  intro heq
  have hexp : Real.exp (-3.14159) = Real.exp (-Real.pi) := by linarith
  have hpi : (-3.14159 : ℝ) = -Real.pi := Real.exp_eq_exp.mp hexp
  have hgt : (3.14159 : ℝ) < Real.pi :=
    lt_trans (by norm_num) Real.pi_gt_d6
  linarith

/-- Claim C3 (amended): `calculateExitTemp` returns
    surfaceTemp − (surfaceTemp − freestreamTemp) * exp(−3.14159 *
    (cellDiameter/1000) * cellNumber * averageConvectiveCoef /
    (filmTempDensity * freestreamVelocity * cellNumberTransverse *
    (transversePitch/1000) * filmTempSpecificHeat)), where 3.14159 is the
    source's finite approximation of π, not the exact constant. -/
theorem calculateExitTemp_formula (cellDiameter cellNumber
    averageConvectiveCoef filmTempDensity freestreamVelocity
    cellNumberTransverse transversePitch filmTempSpecificHeat surfaceTemp
    freestreamTemp : ℝ) :
    calculateExitTemp cellDiameter cellNumber averageConvectiveCoef
      filmTempDensity freestreamVelocity cellNumberTransverse transversePitch
      filmTempSpecificHeat surfaceTemp freestreamTemp =
    surfaceTemp - (surfaceTemp - freestreamTemp) *
      Real.exp (-3.14159 * (cellDiameter / 1000) * cellNumber *
        averageConvectiveCoef /
        (filmTempDensity * freestreamVelocity * cellNumberTransverse *
          (transversePitch / 1000) * filmTempSpecificHeat)) := by
  rw [calculateExitTemp,
    show -3.14159 * cellDiameter / 1000 * cellNumber * averageConvectiveCoef /
        (filmTempDensity * freestreamVelocity * cellNumberTransverse *
          transversePitch / 1000 * filmTempSpecificHeat) =
      -3.14159 * (cellDiameter / 1000) * cellNumber * averageConvectiveCoef /
        (filmTempDensity * freestreamVelocity * cellNumberTransverse *
          (transversePitch / 1000) * filmTempSpecificHeat) from by ring]
  ring

/-- Counterexample for C2: with the sentinel constants, film temperature 0 and
    correction factor 1, the code returns 0 while the claim's formula — the
    Prandtl table interpolated at the film temperature — is nonzero. -/
theorem nusselt_fallback_cex :
    nusseltNumberCalculation 0 0 1 1 1 0 0 1 = 0 ∧
    0.683 * (1 : ℝ) ^ (0.466 : ℝ) *
      (linInterp ((0 + 0) / 2) prandtlTable / 3) * 1 ≠ 0 := by
  constructor
  · rw [nusseltNumberCalculation, if_pos ⟨rfl, rfl⟩]
    show (0.683 * (1 : ℝ) ^ (0.466 : ℝ) *
      ((prandtlNumberCalculation 0 0 ((0 + 0) / 2)).2.2 ^ (1 : ℝ) / 3)) * 1 = 0
    have hfilm : (prandtlNumberCalculation 0 0 (((0 : ℝ) + 0) / 2)).2.2 = 0 := by
      norm_num [prandtlNumberCalculation]
    rw [hfilm, Real.rpow_one]
    ring
  · have hl : linInterp (((0 : ℝ) + 0) / 2) prandtlTable = 0.711 := by
      norm_num [linInterp, prandtlTable]
    rw [hl, Real.one_rpow]
    norm_num

/-- Claim C2 (amended): when both constants are the (0,0) sentinel,
    `nusseltNumberCalculation` returns 0.683 * Re^0.466 * (filmPrandtl/3) *
    correctionFactor where filmPrandtl is the Prandtl table interpolated at
    (surfaceTemperature+freestreamTemperature)/2 whenever that film
    temperature is nonzero, and 0 when the film temperature is exactly 0 (the
    sentinel quirk); otherwise it returns constantOne * Re^constantTwo *
    freestreamPrandtl^0.36 * (freestreamPrandtl/surfacePrandtl)^0.25 *
    correctionFactor.  The correction factor multiplies both branches. -/
theorem nusselt_formula (constantOne constantTwo maxReynolds surfacePrandtl
    freestreamPrandtl surfaceTemperature freestreamTemperature
    correctionFactor : ℝ) :
    (constantOne = 0 ∧ constantTwo = 0 →
      ((surfaceTemperature + freestreamTemperature) / 2 ≠ 0 →
        nusseltNumberCalculation constantOne constantTwo maxReynolds
          surfacePrandtl freestreamPrandtl surfaceTemperature
          freestreamTemperature correctionFactor =
        0.683 * maxReynolds ^ (0.466 : ℝ) *
          (linInterp ((surfaceTemperature + freestreamTemperature) / 2)
              prandtlTable / 3) * correctionFactor) ∧
      ((surfaceTemperature + freestreamTemperature) / 2 = 0 →
        nusseltNumberCalculation constantOne constantTwo maxReynolds
          surfacePrandtl freestreamPrandtl surfaceTemperature
          freestreamTemperature correctionFactor = 0)) ∧
    (¬(constantOne = 0 ∧ constantTwo = 0) →
      nusseltNumberCalculation constantOne constantTwo maxReynolds
        surfacePrandtl freestreamPrandtl surfaceTemperature
        freestreamTemperature correctionFactor =
      constantOne * maxReynolds ^ constantTwo *
        freestreamPrandtl ^ (0.36 : ℝ) *
        (freestreamPrandtl / surfacePrandtl) ^ (0.25 : ℝ) *
        correctionFactor) := by
  constructor
  · rintro ⟨hc1, hc2⟩
    constructor
    · intro hft
      rw [nusseltNumberCalculation, if_pos ⟨hc1, hc2⟩]
      show (0.683 * maxReynolds ^ (0.466 : ℝ) *
        ((prandtlNumberCalculation 0 0
            ((surfaceTemperature + freestreamTemperature) / 2)).2.2 ^
          (1 : ℝ) / 3)) * correctionFactor = _
      have hfilm : (prandtlNumberCalculation 0 0
          ((surfaceTemperature + freestreamTemperature) / 2)).2.2 =
          linInterp ((surfaceTemperature + freestreamTemperature) / 2)
            prandtlTable := by
        simp [prandtlNumberCalculation, hft]
      rw [hfilm, Real.rpow_one]
    · intro hft
      rw [nusseltNumberCalculation, if_pos ⟨hc1, hc2⟩]
      show (0.683 * maxReynolds ^ (0.466 : ℝ) *
        ((prandtlNumberCalculation 0 0
            ((surfaceTemperature + freestreamTemperature) / 2)).2.2 ^
          (1 : ℝ) / 3)) * correctionFactor = 0
      have hfilm : (prandtlNumberCalculation 0 0
          ((surfaceTemperature + freestreamTemperature) / 2)).2.2 = 0 := by
        simp [prandtlNumberCalculation, hft]
      rw [hfilm, Real.rpow_one]
      ring
  · intro hc
    rw [nusseltNumberCalculation, if_neg hc]

/-- Witness for C2 at the sentinel constants with surface 60, freestream 30. -/
theorem nusselt_formula_witness :
    nusseltNumberCalculation 0 0 1 1 1 60 30 1 =
    0.683 * (1 : ℝ) ^ (0.466 : ℝ) *
      (linInterp ((60 + 30) / 2) prandtlTable / 3) * 1 :=
  ((nusselt_formula 0 0 1 1 1 60 30 1).1 ⟨rfl, rfl⟩).1 (by norm_num)

/-- Claim C10: when the film temperature (sT+fT)/2 is exactly 0,
    `prandtlNumberCalculation` returns filmPrandtl = 0 instead of the
    tabulated 0.711, because 0 is also the absent-argument sentinel, and the
    single-cylinder fallback Nusselt number is consequently 0. -/
theorem filmPrandtl_sentinel (surfaceTemperature freestreamTemperature
    maxReynolds surfacePrandtl freestreamPrandtl correctionFactor : ℝ)
    (h : (surfaceTemperature + freestreamTemperature) / 2 = 0) :
    (prandtlNumberCalculation surfaceTemperature freestreamTemperature
      ((surfaceTemperature + freestreamTemperature) / 2)).2.2 = 0 ∧
    linInterp 0 prandtlTable = 0.711 ∧
    nusseltNumberCalculation 0 0 maxReynolds surfacePrandtl freestreamPrandtl
      surfaceTemperature freestreamTemperature correctionFactor = 0 := by
  refine ⟨by simp [prandtlNumberCalculation, h], ?_, ?_⟩
  · norm_num [linInterp, prandtlTable]
  · rw [nusseltNumberCalculation, if_pos ⟨rfl, rfl⟩]
    show (0.683 * maxReynolds ^ (0.466 : ℝ) *
      ((prandtlNumberCalculation 0 0
          ((surfaceTemperature + freestreamTemperature) / 2)).2.2 ^
        (1 : ℝ) / 3)) * correctionFactor = 0
    have hfilm : (prandtlNumberCalculation 0 0
        ((surfaceTemperature + freestreamTemperature) / 2)).2.2 = 0 := by
      simp [prandtlNumberCalculation, h]
    rw [hfilm, Real.rpow_one]
    ring

/-- Witness for C10 at surface 10, freestream −10. -/
theorem filmPrandtl_sentinel_witness :
    (prandtlNumberCalculation 10 (-10) ((10 + -10) / 2)).2.2 = 0 ∧
    linInterp 0 prandtlTable = 0.711 ∧
    nusseltNumberCalculation 0 0 1 1 1 10 (-10) 1 = 0 :=
  filmPrandtl_sentinel 10 (-10) 1 1 1 1 (by norm_num)

lemma prandtl_surface_comp (surfaceTemperature freestreamTemperature
    filmTemperature : ℝ) :
    (prandtlNumberCalculation surfaceTemperature freestreamTemperature
      filmTemperature).2.1 = linInterp surfaceTemperature prandtlTable := rfl

lemma prandtl_freestream_comp (surfaceTemperature freestreamTemperature
    filmTemperature : ℝ) :
    (prandtlNumberCalculation surfaceTemperature freestreamTemperature
      filmTemperature).1 = linInterp freestreamTemperature prandtlTable := rfl

lemma prandtl_film_comp (surfaceTemperature freestreamTemperature
    filmTemperature : ℝ) (h : filmTemperature ≠ 0) :
    (prandtlNumberCalculation surfaceTemperature freestreamTemperature
      filmTemperature).2.2 = linInterp filmTemperature prandtlTable := by
  simp [prandtlNumberCalculation, h]

lemma zero_point_zero : (0.0 : ℝ) = 0 := by norm_num

/-- Counterexample for C6: 0 is a breakpoint of the Prandtl table with
    tabulated value 0.711, yet the film-Prandtl output evaluated at film
    temperature 0 is the sentinel 0, not 0.711. -/
theorem propertyTables_clamp_cex :
    ((0.0 : ℝ), (0.711 : ℝ)) ∈ prandtlTable ∧
    (prandtlNumberCalculation 0 0 0).2.2 = 0 ∧ (0 : ℝ) ≠ 0.711 := by
  refine ⟨?_, by simp [prandtlNumberCalculation], by norm_num⟩
  simp [prandtlTable]

/-- Claim C6 (amended): every property-table lookup clamps to the first
    tabulated value (times the documented unit scale) at or below the first
    breakpoint, to the last tabulated value above the last breakpoint, and
    reproduces the tabulated value exactly at each breakpoint — for density,
    dynamic viscosity (scale 1e-6), thermal conductivity (scale 1e-3),
    specific heat (scale 1000) and the three Prandtl outputs — with the single
    exception that the film-Prandtl output at film temperature exactly 0
    returns the sentinel 0 instead of the tabulated 0.711. -/
theorem propertyTables_clamp (surfaceTemperature freestreamTemperature
    filmTemperature : ℝ) :
    ((surfaceTemperature + freestreamTemperature) / 2 ≤ 0 →
      calculateFluidDensity surfaceTemperature freestreamTemperature =
        1.292) ∧
    (125 ≤ (surfaceTemperature + freestreamTemperature) / 2 →
      calculateFluidDensity surfaceTemperature freestreamTemperature =
        0.8868) ∧
    (∀ x y, (x, y) ∈ densityTable →
      (surfaceTemperature + freestreamTemperature) / 2 = x →
      calculateFluidDensity surfaceTemperature freestreamTemperature = y) ∧
    ((surfaceTemperature + freestreamTemperature) / 2 ≤ 0 →
      calculateDynamicViscosity surfaceTemperature freestreamTemperature =
        17.15 * (10 : ℝ) ^ (-6 : ℤ)) ∧
    (125 ≤ (surfaceTemperature + freestreamTemperature) / 2 →
      calculateDynamicViscosity surfaceTemperature freestreamTemperature =
        22.79 * (10 : ℝ) ^ (-6 : ℤ)) ∧
    (∀ x y, (x, y) ∈ viscosityTable →
      (surfaceTemperature + freestreamTemperature) / 2 = x →
      calculateDynamicViscosity surfaceTemperature freestreamTemperature =
        y * (10 : ℝ) ^ (-6 : ℤ)) ∧
    ((surfaceTemperature + freestreamTemperature) / 2 ≤ 0 →
      fluidThermalConductivityCalculation surfaceTemperature
        freestreamTemperature = 24.36 / 1000) ∧
    (125 ≤ (surfaceTemperature + freestreamTemperature) / 2 →
      fluidThermalConductivityCalculation surfaceTemperature
        freestreamTemperature = 33.33 / 1000) ∧
    (∀ x y, (x, y) ∈ conductivityTable →
      (surfaceTemperature + freestreamTemperature) / 2 = x →
      fluidThermalConductivityCalculation surfaceTemperature
        freestreamTemperature = y / 1000) ∧
    ((surfaceTemperature + freestreamTemperature) / 2 ≤ 0 →
      calculateFluidSpecificHeat surfaceTemperature freestreamTemperature =
        1.006 * 1000) ∧
    (127 ≤ (surfaceTemperature + freestreamTemperature) / 2 →
      calculateFluidSpecificHeat surfaceTemperature freestreamTemperature =
        1.014 * 1000) ∧
    (∀ x y, (x, y) ∈ specificHeatTable →
      (surfaceTemperature + freestreamTemperature) / 2 = x →
      calculateFluidSpecificHeat surfaceTemperature freestreamTemperature =
        y * 1000) ∧
    (surfaceTemperature ≤ 0 →
      (prandtlNumberCalculation surfaceTemperature freestreamTemperature
        filmTemperature).2.1 = 0.711) ∧
    (126.9 ≤ surfaceTemperature →
      (prandtlNumberCalculation surfaceTemperature freestreamTemperature
        filmTemperature).2.1 = 0.699) ∧
    (∀ x y, (x, y) ∈ prandtlTable → surfaceTemperature = x →
      (prandtlNumberCalculation surfaceTemperature freestreamTemperature
        filmTemperature).2.1 = y) ∧
    (freestreamTemperature ≤ 0 →
      (prandtlNumberCalculation surfaceTemperature freestreamTemperature
        filmTemperature).1 = 0.711) ∧
    (126.9 ≤ freestreamTemperature →
      (prandtlNumberCalculation surfaceTemperature freestreamTemperature
        filmTemperature).1 = 0.699) ∧
    (∀ x y, (x, y) ∈ prandtlTable → freestreamTemperature = x →
      (prandtlNumberCalculation surfaceTemperature freestreamTemperature
        filmTemperature).1 = y) ∧
    (filmTemperature ≠ 0 → filmTemperature ≤ 0 →
      (prandtlNumberCalculation surfaceTemperature freestreamTemperature
        filmTemperature).2.2 = 0.711) ∧
    (filmTemperature ≠ 0 → 126.9 ≤ filmTemperature →
      (prandtlNumberCalculation surfaceTemperature freestreamTemperature
        filmTemperature).2.2 = 0.699) ∧
    (filmTemperature ≠ 0 → ∀ x y, (x, y) ∈ prandtlTable →
      filmTemperature = x →
      (prandtlNumberCalculation surfaceTemperature freestreamTemperature
        filmTemperature).2.2 = y) ∧
    ((prandtlNumberCalculation surfaceTemperature freestreamTemperature
      0).2.2 = 0) := by
  refine ⟨?_, ?_, ?_, ?_, ?_, ?_, ?_, ?_, ?_, ?_, ?_, ?_, ?_, ?_, ?_, ?_, ?_,
    ?_, ?_, ?_, ?_, ?_⟩
  · intro h
    rw [calculateFluidDensity]
    simp only [densityTable]
    exact linInterp_le_first _ _ _ _ h
  · intro h
    rw [calculateFluidDensity]
    exact density_hi h
  · intro x y hm he
    rw [calculateFluidDensity, he]
    exact linInterp_mem densityTable x y densityTable_sorted hm
  · intro h
    rw [calculateDynamicViscosity]
    simp only [viscosityTable]
    rw [linInterp_le_first _ _ _ _ h]
  · intro h
    rw [calculateDynamicViscosity, viscosity_hi h]
  · intro x y hm he
    rw [calculateDynamicViscosity, he,
      linInterp_mem viscosityTable x y viscosityTable_sorted hm]
  · intro h
    rw [fluidThermalConductivityCalculation]
    simp only [conductivityTable]
    rw [linInterp_le_first _ _ _ _ h]
  · intro h
    rw [fluidThermalConductivityCalculation, conductivity_hi h]
  · intro x y hm he
    rw [fluidThermalConductivityCalculation, he,
      linInterp_mem conductivityTable x y conductivityTable_sorted hm]
  · intro h
    rw [calculateFluidSpecificHeat]
    simp only [specificHeatTable]
    rw [linInterp_le_first _ _ _ _ (by rw [zero_point_zero]; exact h)]
  · intro h
    rw [calculateFluidSpecificHeat, specificHeat_hi h]
  · intro x y hm he
    rw [calculateFluidSpecificHeat, he,
      linInterp_mem specificHeatTable x y specificHeatTable_sorted hm]
  · intro h
    rw [prandtl_surface_comp]
    simp only [prandtlTable]
    exact linInterp_le_first _ _ _ _ (by rw [zero_point_zero]; exact h)
  · intro h
    rw [prandtl_surface_comp]
    exact prandtl_hi h
  · intro x y hm he
    rw [prandtl_surface_comp, he]
    exact linInterp_mem prandtlTable x y prandtlTable_sorted hm
  · intro h
    rw [prandtl_freestream_comp]
    simp only [prandtlTable]
    exact linInterp_le_first _ _ _ _ (by rw [zero_point_zero]; exact h)
  · intro h
    rw [prandtl_freestream_comp]
    exact prandtl_hi h
  · intro x y hm he
    rw [prandtl_freestream_comp, he]
    exact linInterp_mem prandtlTable x y prandtlTable_sorted hm
  · intro hne h
    rw [prandtl_film_comp _ _ _ hne]
    simp only [prandtlTable]
    exact linInterp_le_first _ _ _ _ (by rw [zero_point_zero]; exact h)
  · intro hne h
    rw [prandtl_film_comp _ _ _ hne]
    exact prandtl_hi h
  · intro hne x y hm he
    rw [prandtl_film_comp _ _ _ hne, he]
    exact linInterp_mem prandtlTable x y prandtlTable_sorted hm
  · simp [prandtlNumberCalculation]

/-- Witness for C6: density clamps below the table and above it. -/
theorem propertyTables_clamp_witness :
    calculateFluidDensity (-10) (-10) = 1.292 ∧
    calculateFluidDensity 300 300 = 0.8868 :=
  ⟨(propertyTables_clamp (-10) (-10) 45).1 (by norm_num),
   (propertyTables_clamp 300 300 45).2.1 (by norm_num)⟩

lemma calculateExitTemp_between (cellDiameter cellNumber averageConvectiveCoef
    filmTempDensity freestreamVelocity cellNumberTransverse transversePitch
    filmTempSpecificHeat surfaceTemp freestreamTemp : ℝ)
    (h1 : 0 < cellDiameter) (h2 : 0 < cellNumber)
    (h3 : 0 < averageConvectiveCoef) (h4 : 0 < filmTempDensity)
    (h5 : 0 < freestreamVelocity) (h6 : 0 < cellNumberTransverse)
    (h7 : 0 < transversePitch) (h8 : 0 < filmTempSpecificHeat)
    (h9 : freestreamTemp < surfaceTemp) :
    freestreamTemp < calculateExitTemp cellDiameter cellNumber
      averageConvectiveCoef filmTempDensity freestreamVelocity
      cellNumberTransverse transversePitch filmTempSpecificHeat surfaceTemp
      freestreamTemp ∧
    calculateExitTemp cellDiameter cellNumber averageConvectiveCoef
      filmTempDensity freestreamVelocity cellNumberTransverse transversePitch
      filmTempSpecificHeat surfaceTemp freestreamTemp < surfaceTemp := by
  have hd : 0 < surfaceTemp - freestreamTemp := sub_pos.mpr h9
  have hnum : -3.14159 * cellDiameter / 1000 * cellNumber *
      averageConvectiveCoef < 0 := by
    have hpos : 0 < 3.14159 * cellDiameter / 1000 * cellNumber *
        averageConvectiveCoef :=
      mul_pos (mul_pos (div_pos (mul_pos (by norm_num) h1) (by norm_num)) h2)
        h3
    have heq : -3.14159 * cellDiameter / 1000 * cellNumber *
        averageConvectiveCoef =
        -(3.14159 * cellDiameter / 1000 * cellNumber *
          averageConvectiveCoef) := by ring
    rw [heq]
    linarith
  have hden : 0 < filmTempDensity * freestreamVelocity *
      cellNumberTransverse * transversePitch / 1000 * filmTempSpecificHeat :=
    mul_pos (div_pos (mul_pos (mul_pos (mul_pos h4 h5) h6) h7) (by norm_num))
      h8
  have hA : (-3.14159 * cellDiameter / 1000 * cellNumber *
      averageConvectiveCoef) / (filmTempDensity * freestreamVelocity *
      cellNumberTransverse * transversePitch / 1000 *
      filmTempSpecificHeat) < 0 := div_neg_of_neg_of_pos hnum hden
  have he1 : 0 < Real.exp ((-3.14159 * cellDiameter / 1000 * cellNumber *
      averageConvectiveCoef) / (filmTempDensity * freestreamVelocity *
      cellNumberTransverse * transversePitch / 1000 *
      filmTempSpecificHeat)) := Real.exp_pos _
  have he2 : Real.exp ((-3.14159 * cellDiameter / 1000 * cellNumber *
      averageConvectiveCoef) / (filmTempDensity * freestreamVelocity *
      cellNumberTransverse * transversePitch / 1000 *
      filmTempSpecificHeat)) < 1 := by
    have := Real.exp_lt_exp.mpr hA
    rwa [Real.exp_zero] at this
  have key := mul_lt_mul_of_pos_right he2 hd
  rw [one_mul] at key
  have key2 := mul_pos he1 hd
  rw [calculateExitTemp]
  constructor
  · linarith
  · linarith

lemma mainFluidDensity_eq : mainFluidDensity = 1.11 := by
  norm_num [mainFluidDensity, calculateFluidDensity, linInterp, densityTable]

lemma mainDynamicViscosity_eq : mainDynamicViscosity = 0.0000193 := by
  norm_num [mainDynamicViscosity, calculateDynamicViscosity, linInterp,
    viscosityTable]

lemma mainReynolds_ok : findMaxReynolds mainFluidDensity 18.5
    mainDynamicViscosity 20 2.5 0 = .ok mainMaxReynoldsVal := by
  rw [findMaxReynolds_eval mainFluidDensity 18.5 mainDynamicViscosity 20 2.5 0
    (by norm_num) (by norm_num)
    (by rw [mainDynamicViscosity_eq]; norm_num)]
  rw [show max ((20 : ℝ) / (20 - 18.5) * 2.5) (20 / (2 * (0 - 18.5)) * 2.5) =
    (20 : ℝ) / (20 - 18.5) * 2.5 from max_eq_left (by norm_num)]
  rfl

lemma mainReynolds_bounds :
    1000 ≤ mainMaxReynoldsVal ∧ mainMaxReynoldsVal < 2 * 10 ^ 5 := by
  rw [mainMaxReynoldsVal, mainFluidDensity_eq, mainDynamicViscosity_eq]
  norm_num

lemma mainConstants_ok : constantCalculation mainMaxReynoldsVal 20 18.536
    "aligned" = .ok (0.27, 0.63) := by
  obtain ⟨hRe1, hRe2⟩ := mainReynolds_bounds
  rw [constantCalculation, if_pos rfl,
    if_neg (by rintro ⟨-, hb⟩; linarith),
    if_neg (by rintro ⟨-, hb⟩; linarith),
    if_neg (by norm_num),
    if_pos ⟨⟨hRe1, hRe2⟩, by norm_num⟩]

lemma mainConstants_eq : mainConstants = (0.27, 0.63) := by
  rw [mainConstants, mainConstants_ok]
  rfl

lemma mainCorrectionFactor_eq : mainCorrectionFactor = 0.97 := by rfl

lemma mainNusselt_pos : 0 < mainNusselt := by
  have hfP : 0 < (prandtlNumberCalculation 60 30 45).1 := by
    rw [prandtl_freestream_comp]
    norm_num [linInterp, prandtlTable]
  have hsP : 0 < (prandtlNumberCalculation 60 30 45).2.1 := by
    rw [prandtl_surface_comp]
    norm_num [linInterp, prandtlTable]
  have hRe0 : 0 < mainMaxReynoldsVal :=
    lt_of_lt_of_le (by norm_num) mainReynolds_bounds.1
  rw [mainNusselt, mainConstants_eq, mainCorrectionFactor_eq]
  rw [nusseltNumberCalculation, if_neg (by norm_num)]
  apply mul_pos _ (by norm_num : (0 : ℝ) < 0.97)
  apply mul_pos
  apply mul_pos
  apply mul_pos (by norm_num : (0 : ℝ) < 0.27)
  · exact Real.rpow_pos_of_pos hRe0 _
  · exact Real.rpow_pos_of_pos hfP _
  · exact Real.rpow_pos_of_pos (div_pos hfP hsP) _

lemma mainHBar_pos : 0 < mainHBar := by
  have hk : 0 < fluidThermalConductivityCalculation 60 30 := by
    rw [fluidThermalConductivityCalculation]
    norm_num [linInterp, conductivityTable]
  rw [mainHBar, calculateAverageConvectiveCoefficient]
  exact div_pos (mul_pos mainNusselt_pos hk) (by norm_num)

lemma mainSpecificHeat_pos : 0 < mainSpecificHeat := by
  rw [mainSpecificHeat, calculateFluidSpecificHeat]
  norm_num [linInterp, specificHeatTable]

lemma mainExitTemp_bounds : 30 < mainExitTemp ∧ mainExitTemp < 60 := by
  rw [mainExitTemp]
  exact calculateExitTemp_between 18.5 180 mainHBar mainFluidDensity 2.5 4 20
    mainSpecificHeat 60 30 (by norm_num) (by norm_num) mainHBar_pos
    (by rw [mainFluidDensity_eq]; norm_num) (by norm_num) (by norm_num)
    (by norm_num) mainSpecificHeat_pos (by norm_num)

lemma mainLmtd_ok :
    isErr (calculateLogMeanTempDifference 60 30 mainExitTemp) = false := by
  obtain ⟨hlo, hhi⟩ := mainExitTemp_bounds
  have hd2 : (0 : ℝ) < 60 - mainExitTemp := by linarith
  have hration : 1 < ((60 : ℝ) - 30) / (60 - mainExitTemp) := by
    rw [lt_div_iff₀ hd2]
    linarith
  have h2 : ¬(((60 : ℝ) - 30) / (60 - mainExitTemp) ≤ 0) := by
    push_neg
    linarith
  have h3 : Real.log (((60 : ℝ) - 30) / (60 - mainExitTemp)) ≠ 0 :=
    ne_of_gt (Real.log_pos hration)
  rw [lmtd_eval 60 30 mainExitTemp (ne_of_gt hd2) h2 h3]
  rfl

/-- Claim C9: for surfaceTemp > freestreamTemp and strictly positive geometry,
    flow and property parameters, `calculateExitTemp` lies strictly between
    the freestream and surface temperatures; in particular Main.py's aligned
    example (diameter 18.5 mm, transversePitch 20 mm, 60 °C surface, 30 °C
    freestream, 2.5 m/s, 180 cells) produces a finite exit temperature with
    60 > exitTemperature > 30 and a well-defined (finite) log-mean temperature
    difference, hence a finite total heat transfer. -/
theorem exitTemp_bounds :
    (∀ cD n h dens v nT tP sH sT fT : ℝ, 0 < cD → 0 < n → 0 < h → 0 < dens →
      0 < v → 0 < nT → 0 < tP → 0 < sH → fT < sT →
      fT < calculateExitTemp cD n h dens v nT tP sH sT fT ∧
      calculateExitTemp cD n h dens v nT tP sH sT fT < sT) ∧
    (findMaxReynolds mainFluidDensity 18.5 mainDynamicViscosity 20 2.5 0 =
      .ok mainMaxReynoldsVal ∧
     (30 < mainExitTemp ∧ mainExitTemp < 60) ∧
     isErr (calculateLogMeanTempDifference 60 30 mainExitTemp) = false) :=
  ⟨fun cD n h dens v nT tP sH sT fT h1 h2 h3 h4 h5 h6 h7 h8 h9 =>
    calculateExitTemp_between cD n h dens v nT tP sH sT fT h1 h2 h3 h4 h5 h6
      h7 h8 h9,
   mainReynolds_ok, mainExitTemp_bounds, mainLmtd_ok⟩

/-- Witness for C9's general bound at unit parameters. -/
theorem exitTemp_bounds_witness :
    (0 : ℝ) < calculateExitTemp 1000 1 1 1 1 1 1000 1 1 0 ∧
    calculateExitTemp 1000 1 1 1 1 1 1000 1 1 0 < 1 :=
  exitTemp_bounds.1 1000 1 1 1 1 1 1000 1 1 0 (by norm_num) (by norm_num)
    (by norm_num) (by norm_num) (by norm_num) (by norm_num) (by norm_num)
    (by norm_num) (by norm_num)
